import Mathlib

/-!
Verification development for the LGTM metrics sender
(`tenant-dashboard/send-metrics-to-lgtm.py`).

The script reads Playwright test-report documents, flattens their nested
suite trees, classifies each test case into one of four categories,
aggregates per-category counts and durations, and pushes the result to
three backends (Prometheus pushgateway, Loki, Grafana) with a
print-to-console fallback on delivery failure.

Modelling conventions for the shallow embedding:
* A Python dict with a fixed key set is a Lean structure; a key that may be
  absent is an `Option` field.  Reading an absent key with `d['k']` (a
  `KeyError`) is modelled by `Option`-valued failure of the whole
  computation; reading with `d.get('k', default)` is `Option.getD`.
* Numbers are `ℚ` where Python mixes ints and float division; counters are
  `ℕ`.  Python float arithmetic coincides with exact rational arithmetic on
  every value these claims mention, so `ℚ` is used throughout.
* Console output is modelled as the list of printed items; network calls
  are modelled by passing the would-be HTTP response (`Option ℕ`: `none`
  for a transport exception, `some code` for a status code) as a parameter.
* Wall-clock values (`self.timestamp`, `datetime.now()`) are parameters.
-/

namespace LGTM

/-- Python `needle in hay` substring test on lists of characters:
`True` iff `needle` occurs contiguously in `hay` (the empty needle always
occurs). -/
def containsSub (needle : List Char) : List Char → Bool
  | [] => needle.isEmpty
  | hay@(_ :: rest) => needle.isPrefixOf hay || containsSub needle rest

/-- Python `needle in hay` on strings. -/
def pyIn (needle hay : String) : Bool :=
  containsSub needle.toList hay.toList

/-- Python `str.lower()`: lower-case each character (written directly over
the character list; it agrees with `String.toLower`, which maps
`Char.toLower` over the string). -/
def pyLower (s : String) : String :=
  ⟨s.data.map Char.toLower⟩

/-- The `error` value attached to a failing test case; its `message` key may
be absent (`test.get('error', {}).get('message', ...)`). -/
structure ErrorInfo where
  message : Option String
  deriving Repr, DecidableEq

/-- A leaf test-case record from the report JSON.  Every field may be
absent; the script reads each with `test.get(key, default)`. -/
structure TestCase where
  title : Option String
  status : Option String
  duration : Option ℤ
  error : Option ErrorInfo
  deriving Repr, DecidableEq

/-- A suite node: `tests` holds leaf cases, `suites` holds sub-suites.
A missing `'tests'`/`'suites'` key behaves exactly like the empty list
(`if 'tests' in suite: tests.extend(suite['tests'])`), so both are
modelled as plain lists. -/
inductive Suite : Type where
  | mk (tests : List TestCase) (suites : List Suite) : Suite
  deriving Repr

/-- The leaf cases a suite node holds directly. -/
def Suite.tests : Suite → List TestCase
  | .mk ts _ => ts

/-- The sub-suites of a suite node. -/
def Suite.subs : Suite → List Suite
  | .mk _ ss => ss

/-- A report document; the top-level `'suites'` key may be absent
(`if 'suites' in data:`). -/
structure Report where
  suites : Option (List Suite)

mutual

/-- Source `_extract_tests_from_suite`: collect the suite's own tests, then each
sub-suite's tests recursively, in document order. -/
def extractTestsFromSuite : Suite → List TestCase
  | .mk ts ss => ts ++ extractTestsFromSuites ss

/-- Flattening of a list of suites, in order (the successive
`tests.extend(...)` calls of the source). -/
def extractTestsFromSuites : List Suite → List TestCase
  | [] => []
  | s :: rest => extractTestsFromSuite s ++ extractTestsFromSuites rest

end

/-- The four categories of `extract_metrics`. -/
inductive Category : Type where
  | core_tests
  | visual_tests
  | mobile_tests
  | airtable_integration
  deriving Repr, DecidableEq

/-- The classification chain of `extract_metrics` (lines 75–87 of the
source): lower-case the title (default `''`), then first match wins among
airtable/integration → mobile-or-visual → visual → core. -/
def categorize (testType : String) (t : TestCase) : Category :=
  let name := pyLower (t.title.getD "")
  if pyIn "airtable" name || pyIn "integration" name then .airtable_integration
  else if pyIn "mobile" name || testType == "visual" then .mobile_tests
  else if testType == "visual" then .visual_tests
  else .core_tests

/-- One per-category dict during aggregation.  `avg_duration` and
`total_duration` are `Option` because the source omits those two keys from
the initial `mobile_tests` and `airtable_integration` dicts; `+=` on an
absent key is a `KeyError`. -/
structure CatAcc where
  total : ℕ
  passed : ℕ
  failed : ℕ
  success_rate : ℚ
  avg_duration : Option ℚ
  total_duration : Option ℤ
  deriving Repr, DecidableEq

/-- The initial `core_tests` / `visual_tests` dict: all six keys, zeroed. -/
def initFullCat : CatAcc :=
  { total := 0, passed := 0, failed := 0, success_rate := 0,
    avg_duration := some 0, total_duration := some 0 }

/-- The initial `mobile_tests` / `airtable_integration` dict: only the four
keys `total`, `passed`, `failed`, `success_rate`. -/
def initShortCat : CatAcc :=
  { total := 0, passed := 0, failed := 0, success_rate := 0,
    avg_duration := none, total_duration := none }

/-- The `metrics` dict of `extract_metrics`, one entry per category, in the
source's insertion order (core, visual, mobile, airtable). -/
structure MetricsAcc where
  core_tests : CatAcc
  visual_tests : CatAcc
  mobile_tests : CatAcc
  airtable_integration : CatAcc
  deriving Repr, DecidableEq

/-- The `metrics` dict right after its literal initialisation. -/
def initMetrics : MetricsAcc :=
  { core_tests := initFullCat, visual_tests := initFullCat,
    mobile_tests := initShortCat, airtable_integration := initShortCat }

/-- Processing one test case into its category's dict:
`total += 1`, `total_duration += duration` (a `KeyError` — `none` — when
the key is absent), then `passed += 1` if the status is `'passed'`, else
`failed += 1`. -/
def catUpdate (c : CatAcc) (t : TestCase) : Option CatAcc :=
  match c.total_duration with
  | none => none
  | some td =>
    let c := { c with total := c.total + 1,
                      total_duration := some (td + t.duration.getD 0) }
    if t.status.getD "unknown" == "passed" then
      some { c with passed := c.passed + 1 }
    else
      some { c with failed := c.failed + 1 }

/-- Route one test case to the dict chosen by `categorize`. -/
def accUpdate (m : MetricsAcc) (testType : String) (t : TestCase) :
    Option MetricsAcc :=
  match categorize testType t with
  | .core_tests => (catUpdate m.core_tests t).map
      (fun c => { m with core_tests := c })
  | .visual_tests => (catUpdate m.visual_tests t).map
      (fun c => { m with visual_tests := c })
  | .mobile_tests => (catUpdate m.mobile_tests t).map
      (fun c => { m with mobile_tests := c })
  | .airtable_integration => (catUpdate m.airtable_integration t).map
      (fun c => { m with airtable_integration := c })

/-- All flattened cases of one report document: nothing when the top-level
`'suites'` key is absent, else every root suite flattened in order. -/
def reportCases (r : Report) : List TestCase :=
  match r.suites with
  | none => []
  | some ss => extractTestsFromSuites ss

/-- The accumulation loop of `extract_metrics` over
`for test_type, data in results.items(): ... for test in ...`. -/
def aggregate (results : List (String × Report)) : Option MetricsAcc :=
  results.foldlM
    (fun m p => (reportCases p.2).foldlM (fun m t => accUpdate m p.1 t) m)
    initMetrics

/-- A finished per-category aggregate: after the derivation loop the
`success_rate` and `avg_duration` keys are always present (they are
assigned in both branches), so they are plain fields here. -/
structure FinalCat where
  total : ℕ
  passed : ℕ
  failed : ℕ
  success_rate : ℚ
  avg_duration : ℚ
  total_duration : Option ℤ
  deriving Repr, DecidableEq

/-- The derivation step of `extract_metrics` for one category:
if `total > 0` set `success_rate = passed/total*100` and
`avg_duration = total_duration/total` (reading `total_duration` — a
`KeyError` when absent), else set both to `0`. -/
def finalizeCat (c : CatAcc) : Option FinalCat :=
  if 0 < c.total then
    match c.total_duration with
    | none => none
    | some td => some
        { total := c.total, passed := c.passed, failed := c.failed,
          success_rate := ((c.passed : ℚ) / (c.total : ℚ)) * 100,
          avg_duration := td / (c.total : ℚ),
          total_duration := some td }
  else some
    { total := c.total, passed := c.passed, failed := c.failed,
      success_rate := 0, avg_duration := 0,
      total_duration := c.total_duration }

/-- The RunSummary: the four finished aggregates. -/
structure Metrics where
  core_tests : FinalCat
  visual_tests : FinalCat
  mobile_tests : FinalCat
  airtable_integration : FinalCat
  deriving Repr, DecidableEq

/-- `extract_metrics`: accumulate every case, then derive rates and
averages for all four categories.  `none` models an uncaught `KeyError`. -/
def extractMetrics (results : List (String × Report)) : Option Metrics := do
  let m ← aggregate results
  let core ← finalizeCat m.core_tests
  let visual ← finalizeCat m.visual_tests
  let mobile ← finalizeCat m.mobile_tests
  let airtable ← finalizeCat m.airtable_integration
  pure { core_tests := core, visual_tests := visual,
         mobile_tests := mobile, airtable_integration := airtable }

/-- Canonical rendering of the numeric values interpolated into metric
lines.  Python prints ints and floats; the embedding renders the exact
rational (integers plain, other values as a fraction).  No claim under
verification depends on the textual number format. -/
def showQ (q : ℚ) : String :=
  if q.den = 1 then toString q.num
  else toString q.num ++ "/" ++ toString q.den

/-- One Prometheus exposition line
`name\x7bcategory="..."\x7d value` (braces written as escapes). -/
def metricLine (metricName category value : String) : String :=
  metricName ++ "\x7bcategory=\"" ++ category ++ "\"\x7d " ++ value

/-- The five metric lines `send_to_prometheus` renders for one category. -/
def promCatLines (category : String) (d : FinalCat) : List String :=
  [ metricLine "playwright_tests_total" category (toString d.total),
    metricLine "playwright_tests_passed" category (toString d.passed),
    metricLine "playwright_tests_failed" category (toString d.failed),
    metricLine "playwright_success_rate" category (showQ d.success_rate),
    metricLine "playwright_avg_duration_ms" category (showQ d.avg_duration) ]

/-- All metric lines: five per category in dict order, then the
`playwright_test_execution_timestamp` line. -/
def prometheusLines (m : Metrics) (ts : ℕ) : List String :=
  promCatLines "core_tests" m.core_tests ++
  promCatLines "visual_tests" m.visual_tests ++
  promCatLines "mobile_tests" m.mobile_tests ++
  promCatLines "airtable_integration" m.airtable_integration ++
  ["playwright_test_execution_timestamp " ++ toString ts]

/-- The POSTed pushgateway body.  The source joins the lines with the
string literal `"\\n"`, i.e. the two-character sequence backslash-`n`,
not with a newline character. -/
def prometheusPayload (m : Metrics) (ts : ℕ) : String :=
  String.intercalate "\\n" (prometheusLines m ts)

/-- Source `send_to_prometheus`: a 200 response prints a success message and
returns `True`; a transport exception or any other status falls through to
the fallback, which prints a header and every metric line (indented two
spaces) and returns `False`.  The result pairs the returned flag with the
console output. -/
def sendToPrometheus (m : Metrics) (ts : ℕ) (resp : Option ℕ) :
    Bool × List String :=
  let lines := prometheusLines m ts
  if resp == some 200 then
    (true, ["✅ Metrics sent to Prometheus pushgateway"])
  else
    (false, "📊 Prometheus Metrics (manual collection needed):" ::
      lines.map (fun l => "  " ++ l))

/-- One structured Loki log line (the serialized JSON object, modelled by
its fields; run timestamps are ambient and identical on every entry). -/
inductive LokiLine : Type where
  | summary (category : String) (total passed failed : ℕ)
      (success_rate avg_duration : ℚ)
  | failure (test_name status : String) (duration : ℤ) (error : String)
  deriving Repr, DecidableEq

/-- Python `test.get('error', \x7b\x7d).get('message', 'No error message')` -- the
error message, defaulting through both absent levels. -/
def pyErrorMessage (t : TestCase) : String :=
  match t.error with
  | none => "No error message"
  | some e => e.message.getD "No error message"

/-- The per-category summary entry of `send_to_loki`. -/
def summaryLine (category : String) (d : FinalCat) : LokiLine :=
  .summary category d.total d.passed d.failed d.success_rate d.avg_duration

/-- The failure-detail entry of `send_to_loki` for one test case. -/
def failureLine (t : TestCase) : LokiLine :=
  .failure (t.title.getD "Unknown") (t.status.getD "unknown")
    (t.duration.getD 0) (pyErrorMessage t)

/-- Every flattened case of every report, in results order. -/
def allCases (results : List (String × Report)) : List TestCase :=
  (results.map (fun p => reportCases p.2)).flatten

/-- The cases the failure scan selects: `test.get('status') != 'passed'`
(note: here the default is `None`, so an absent status also fails). -/
def failingCases (results : List (String × Report)) : List TestCase :=
  (allCases results).filter (fun t => !(t.status == some "passed"))

/-- The full Loki batch: one summary entry per category in dict order,
then one failure entry per failing case in results order. -/
def lokiEntries (m : Metrics) (results : List (String × Report)) :
    List LokiLine :=
  [summaryLine "core_tests" m.core_tests,
   summaryLine "visual_tests" m.visual_tests,
   summaryLine "mobile_tests" m.mobile_tests,
   summaryLine "airtable_integration" m.airtable_integration] ++
  (failingCases results).map failureLine

/-- What `send_to_loki` returns and prints: the flag, the entries echoed
to the console, and the count in the trailing
`... and N more entries` line (`len(log_entries) - 3`). -/
structure LokiOutcome where
  ok : Bool
  shown : List LokiLine
  more : ℤ
  deriving Repr, DecidableEq

/-- Source `send_to_loki`: a 204 response prints only a success message and
returns `True`; otherwise the fallback prints the first three entries
(`log_entries[:3]`) plus the remaining-entries count, and returns
`False`. -/
def sendToLoki (entries : List LokiLine) (resp : Option ℕ) : LokiOutcome :=
  if resp == some 204 then
    { ok := true, shown := [], more := 0 }
  else
    { ok := false, shown := entries.take 3,
      more := (entries.length : ℤ) - 3 }

/-- The Grafana annotation object built by `create_grafana_annotation`:
`time`, `timeEnd` one minute later, the fixed tag list, and the
multi-line `text`, modelled by the values interpolated into it — the
overall test count, the overall pass count and the overall success rate
(`(total_passed / total_tests) * 100 if total_tests > 0 else 0`); the
wall-clock `datetime.now()` string of the text is ambient. -/
structure GrafanaAnnotationData where
  time : ℕ
  timeEnd : ℕ
  tags : List String
  totalTests : ℕ
  totalPassed : ℕ
  overallSuccessRate : ℚ
  deriving Repr, DecidableEq

/-- The overall totals the annotation text reports:
`sum(data['total'] ...)` and `sum(data['passed'] ...)` over the four
categories. -/
def overallTotals (m : Metrics) : ℕ × ℕ :=
  (m.core_tests.total + m.visual_tests.total + m.mobile_tests.total +
     m.airtable_integration.total,
   m.core_tests.passed + m.visual_tests.passed + m.mobile_tests.passed +
     m.airtable_integration.passed)

/-- The fully-rendered annotation payload for one summary and run
timestamp. -/
def grafanaAnnotationData (m : Metrics) (ts : ℕ) : GrafanaAnnotationData :=
  let t := (overallTotals m).1
  let p := (overallTotals m).2
  { time := ts, timeEnd := ts + 60000,
    tags := ["playwright", "frontend-testing", "automation"],
    totalTests := t, totalPassed := p,
    overallSuccessRate := if 0 < t then ((p : ℚ) / (t : ℚ)) * 100 else 0 }

/-- Source `create_grafana_annotation`: build the annotation and attempt
the POST; a 200 or 201 response prints a success message and returns
`True`; a transport exception or any other status falls through to the
fallback, which prints a header and the full annotation object and
returns `False`.  The result pairs the returned flag with the payload
echoed to the console (`none` on success, when only the success message
is printed). -/
def createGrafanaAnnotationCall (m : Metrics) (ts : ℕ) (resp : Option ℕ) :
    Bool × Option GrafanaAnnotationData :=
  if resp == some 200 || resp == some 201 then (true, none)
  else (false, some (grafanaAnnotationData m ts))

/-- The three would-be HTTP responses of one run (`none` = transport
exception, `some code` = status code). -/
structure Net where
  prom : Option ℕ
  loki : Option ℕ
  graf : Option ℕ
  deriving Repr, DecidableEq

/-- How one invocation of `run` ends. -/
inductive RunResult : Type where
  /-- Case: `results` was empty, the no-data message is printed, `run`
  returns `False`, and no publisher is attempted. -/
  | noData
  /-- Case: `extract_metrics` raised an uncaught `KeyError`. -/
  | crashed
  /-- Case: `run` returned `True` after attempting all three publishers, whose
  individual flags are recorded. -/
  | completed (prom loki graf : Bool)
  deriving Repr, DecidableEq

/-- Source `run`: bail out (`False`) on an empty results mapping; otherwise
extract metrics (which may raise), print the summary, then attempt the
three publishers in order — each publisher only returns a flag, so no
publisher outcome can abort the run — and return `True`. -/
def run (results : List (String × Report)) (ts : ℕ) (net : Net) :
    RunResult :=
  if results.isEmpty then .noData
  else
    match extractMetrics results with
    | none => .crashed
    | some m =>
        .completed (sendToPrometheus m ts net.prom).1
          (sendToLoki (lokiEntries m results) net.loki).ok
          (createGrafanaAnnotationCall m ts net.graf).1

/-- Python `sys.exit(0 if success else 1)`; an uncaught exception also terminates
the interpreter with a non-zero code. -/
def exitCode : RunResult → ℕ
  | .noData => 1
  | .crashed => 1
  | .completed _ _ _ => 0

/-- The classification rules exactly as the specification words them, as a
function of the source label and the raw title, for comparison with the
implementation's `categorize`. -/
def specClassify (sourceLabel title : String) : Category :=
  let lowered := pyLower title
  if pyIn "airtable" lowered || pyIn "integration" lowered then
    .airtable_integration
  else if pyIn "mobile" lowered || sourceLabel == "visual" then
    .mobile_tests
  else if sourceLabel == "visual" then
    .visual_tests
  else
    .core_tests

mutual

/-- Per-suite leaf count: a suite's own test cases plus those of its
sub-suites, the specification's `N`. -/
def numLeaves : Suite → ℕ
  | .mk ts ss => ts.length + numLeavesList ss

/-- Leaf count over a list of suites. -/
def numLeavesList : List Suite → ℕ
  | [] => 0
  | s :: rest => numLeaves s + numLeavesList rest

end

/-- The invariant of one category dict: its counters are consistent. -/
def catInv (c : CatAcc) : Prop :=
  c.passed + c.failed = c.total

/-- The counter invariant on all four category dicts at once. -/
def accInv (m : MetricsAcc) : Prop :=
  catInv m.core_tests ∧ catInv m.visual_tests ∧
  catInv m.mobile_tests ∧ catInv m.airtable_integration

/-- A concrete test case with all four fields present. -/
def mkCase (ti st : String) (d : ℤ) : TestCase :=
  { title := some ti, status := some st, duration := some d, error := none }

/-- The end-to-end example report: five cases that classify as
`core_tests`, two passed and three failed, durations 100..500 ms. -/
def rep9 : Report :=
  { suites := some [Suite.mk
      [mkCase "login works" "passed" 100,
       mkCase "signup works" "passed" 200,
       mkCase "dashboard loads" "failed" 300,
       mkCase "report export" "failed" 400,
       mkCase "settings save" "timedOut" 500] []] }

/-- A report whose single case is titled `Mobile nav renders`. -/
def repMobile : Report :=
  { suites := some [Suite.mk [mkCase "Mobile nav renders" "passed" 5] []] }

/-- A report whose single case is titled `Airtable sync integration`. -/
def repAirtable : Report :=
  { suites := some [Suite.mk
      [mkCase "Airtable sync integration" "passed" 7] []] }

/-- A loaded report document with no top-level `suites` key. -/
def repNoSuites : Report := { suites := none }

/-- The finished aggregate of an empty category that started with all six
keys. -/
def zeroFullFinal : FinalCat :=
  { total := 0, passed := 0, failed := 0, success_rate := 0,
    avg_duration := 0, total_duration := some 0 }

/-- The finished aggregate of an empty category that started without the
duration keys. -/
def zeroShortFinal : FinalCat :=
  { total := 0, passed := 0, failed := 0, success_rate := 0,
    avg_duration := 0, total_duration := none }

/-- The RunSummary of a run that flattened no test cases at all. -/
def mZero : Metrics :=
  { core_tests := zeroFullFinal, visual_tests := zeroFullFinal,
    mobile_tests := zeroShortFinal, airtable_integration := zeroShortFinal }

/-- A network where every pushgateway/Loki/Grafana call would succeed. -/
def netAllOk : Net := { prom := some 200, loki := some 204, graf := some 200 }

/-- A network where the pushgateway answers 500 but Loki and Grafana
succeed. -/
def netPromFail : Net :=
  { prom := some 500, loki := some 204, graf := some 200 }

/-- Flattening a list of suites concatenates the flattenings in order. -/
theorem extractTestsFromSuites_eq_flatten (l : List Suite) :
    extractTestsFromSuites l = (l.map extractTestsFromSuite).flatten := by
  induction l with
  | nil => rfl
  | cons s rest ih => simp [extractTestsFromSuites, ih]

mutual

/-- Flattening one suite yields one record per leaf test case. -/
theorem length_extractSuite : ∀ s : Suite,
    (extractTestsFromSuite s).length = numLeaves s
  | .mk ts ss => by
      simp [extractTestsFromSuite, numLeaves, length_extractSuites ss]

/-- Flattening a suite list yields one record per leaf test case. -/
theorem length_extractSuites : ∀ l : List Suite,
    (extractTestsFromSuites l).length = numLeavesList l
  | [] => rfl
  | s :: rest => by
      simp [extractTestsFromSuites, numLeavesList, length_extractSuite s,
            length_extractSuites rest]

end

/-- C1: classification of `(sourceLabel, title)` follows the four-rule
first-match-wins precedence exactly as the specification words it
(airtable/integration in the lowered title; then mobile-in-title or visual
source; then visual source; then core), the `visual`-sourced case titled
`Mobile nav renders` classifies as `mobile_tests`, the `core`-sourced case
titled `Airtable sync integration` classifies as `airtable_integration`,
and rule 3's `visual_tests` branch never fires for a visual-sourced
case. -/
theorem classification_follows_precedence (sourceLabel : String)
    (t : TestCase) :
    categorize sourceLabel t = specClassify sourceLabel (t.title.getD "") ∧
    categorize "visual" (mkCase "Mobile nav renders" "passed" 5) =
      .mobile_tests ∧
    categorize "core" (mkCase "Airtable sync integration" "passed" 7) =
      .airtable_integration ∧
    (categorize "visual" t = .mobile_tests ∨
      categorize "visual" t = .airtable_integration) := by
  refine ⟨rfl, by decide, by decide, ?_⟩
  by_cases h : (pyIn "airtable" (pyLower (t.title.getD "")) ||
      pyIn "integration" (pyLower (t.title.getD ""))) = true
  · right; simp [categorize, h]
  · left; simp [categorize, h]

/-- C3: the claim holds of the specification but not of the code.  The
`mobile_tests` and `airtable_integration` dicts are created without a
`total_duration` key, so the unconditional
`metrics[category]['total_duration'] += duration` raises `KeyError` for
any case classified into those two categories: aggregation does not
complete.  Both one-mobile-case and one-airtable-case inputs evaluate to
the failure value. -/
theorem aggregation_keyerror_on_mobile_and_airtable :
    extractMetrics [("core", repMobile)] = none ∧
    extractMetrics [("core", repAirtable)] = none ∧
    categorize "core" (mkCase "Mobile nav renders" "passed" 5) =
      .mobile_tests ∧
    categorize "core" (mkCase "Airtable sync integration" "passed" 7) =
      .airtable_integration ∧
    initMetrics.mobile_tests.total_duration = none ∧
    initMetrics.airtable_integration.total_duration = none := by
  decide

/-- C4: flattening a finite suite tree yields exactly as many records as
there are leaf test cases, whatever the depth and branching, and the
records come in the deterministic depth-first order in which a suite's own
test cases precede the recursive flattening of each of its sub-suites. -/
theorem flatten_yields_exactly_leaf_count (s : Suite) :
    (extractTestsFromSuite s).length = numLeaves s ∧
    extractTestsFromSuite s =
      s.tests ++ (s.subs.map extractTestsFromSuite).flatten := by
  refine ⟨length_extractSuite s, ?_⟩
  cases s with
  | mk ts ss =>
      simp [extractTestsFromSuite, Suite.tests, Suite.subs,
            extractTestsFromSuites_eq_flatten]

/-- Processing one case preserves `passed + failed = total` on its dict. -/
theorem catUpdate_inv {c c' : CatAcc} {t : TestCase}
    (h : catUpdate c t = some c') (hc : catInv c) : catInv c' := by
  cases htd : c.total_duration with
  | none => simp [catUpdate, htd] at h
  | some td =>
      simp only [catUpdate, htd] at h
      split at h <;> simp only [Option.some.injEq] at h <;> subst h <;>
        simp [catInv] at hc ⊢ <;> omega

/-- Routing one case preserves the counter invariant on all four dicts. -/
theorem accUpdate_inv {m m' : MetricsAcc} {tt : String} {t : TestCase}
    (h : accUpdate m tt t = some m') (hm : accInv m) : accInv m' := by
  obtain ⟨h1, h2, h3, h4⟩ := hm
  unfold accUpdate at h
  cases hcat : categorize tt t <;> rw [hcat] at h <;>
    obtain ⟨c, hcu, rfl⟩ := Option.map_eq_some'.mp h
  · exact ⟨catUpdate_inv hcu h1, h2, h3, h4⟩
  · exact ⟨h1, catUpdate_inv hcu h2, h3, h4⟩
  · exact ⟨h1, h2, catUpdate_inv hcu h3, h4⟩
  · exact ⟨h1, h2, h3, catUpdate_inv hcu h4⟩

/-- The inner case loop preserves the counter invariant. -/
theorem foldCases_inv (tt : String) (ts : List TestCase) :
    ∀ {m m' : MetricsAcc},
      ts.foldlM (fun a t => accUpdate a tt t) m = some m' →
      accInv m → accInv m' := by
  induction ts with
  | nil =>
      intro m m' h hm
      simp only [List.foldlM_nil] at h
      cases h; exact hm
  | cons t rest ih =>
      intro m m' h hm
      rw [List.foldlM_cons] at h
      cases hu : accUpdate m tt t with
      | none => rw [hu] at h; cases h
      | some m1 =>
          rw [hu] at h
          exact ih h (accUpdate_inv hu hm)

/-- The outer report loop preserves the counter invariant. -/
theorem foldReports_inv (rs : List (String × Report)) :
    ∀ {m m' : MetricsAcc},
      rs.foldlM
        (fun a p => (reportCases p.2).foldlM (fun a t => accUpdate a p.1 t) a)
        m = some m' →
      accInv m → accInv m' := by
  induction rs with
  | nil =>
      intro m m' h hm
      simp only [List.foldlM_nil] at h
      cases h; exact hm
  | cons p rest ih =>
      intro m m' h hm
      rw [List.foldlM_cons] at h
      cases hu : (reportCases p.2).foldlM (fun a t => accUpdate a p.1 t) m with
      | none => rw [hu] at h; cases h
      | some m1 =>
          rw [hu] at h
          exact ih h (foldCases_inv p.1 (reportCases p.2) hu hm)

/-- Every successful aggregation satisfies the counter invariant. -/
theorem aggregate_inv {results : List (String × Report)} {m : MetricsAcc}
    (h : aggregate results = some m) : accInv m :=
  foldReports_inv results h
    (by simp [accInv, catInv, initMetrics, initFullCat, initShortCat])

/-- The derivation step keeps the counters and zeroes the derived fields
of an empty category. -/
theorem finalizeCat_inv {c : CatAcc} {f : FinalCat}
    (h : finalizeCat c = some f) (hc : catInv c) :
    f.passed + f.failed = f.total ∧
      (f.total = 0 → f.success_rate = 0 ∧ f.avg_duration = 0) := by
  unfold finalizeCat at h
  by_cases hpos : 0 < c.total
  · rw [if_pos hpos] at h
    cases htd : c.total_duration with
    | none => rw [htd] at h; cases h
    | some td =>
        rw [htd] at h
        simp only [Option.some.injEq] at h
        subst h
        refine ⟨hc, fun h0 => ?_⟩
        simp only at h0
        omega
  · rw [if_neg hpos] at h
    simp only [Option.some.injEq] at h
    subst h
    exact ⟨hc, fun _ => ⟨rfl, rfl⟩⟩

/-- C2: for every input mapping of report documents, every category
aggregate of a resulting RunSummary satisfies `passed + failed = total`
with all three counters non-negative, and every category with `total = 0`
has `success_rate = 0` and `avg_duration = 0` rather than a division
error. -/
theorem runsummary_category_invariants
    (results : List (String × Report)) (m : Metrics)
    (h : extractMetrics results = some m) :
    ∀ f ∈ [m.core_tests, m.visual_tests, m.mobile_tests,
           m.airtable_integration],
      f.passed + f.failed = f.total ∧
      0 ≤ f.passed ∧ 0 ≤ f.failed ∧ 0 ≤ f.total ∧
      (f.total = 0 → f.success_rate = 0 ∧ f.avg_duration = 0) := by
  unfold extractMetrics at h
  cases hag : aggregate results with
  | none => rw [hag] at h; cases h
  | some acc =>
      rw [hag] at h
      obtain ⟨i1, i2, i3, i4⟩ := aggregate_inv hag
      simp only [Option.bind_eq_bind, Option.some_bind] at h
      cases h1 : finalizeCat acc.core_tests with
      | none => rw [h1] at h; cases h
      | some f1 =>
      rw [h1] at h; simp only [Option.some_bind] at h
      cases h2 : finalizeCat acc.visual_tests with
      | none => rw [h2] at h; cases h
      | some f2 =>
      rw [h2] at h; simp only [Option.some_bind] at h
      cases h3 : finalizeCat acc.mobile_tests with
      | none => rw [h3] at h; cases h
      | some f3 =>
      rw [h3] at h; simp only [Option.some_bind] at h
      cases h4 : finalizeCat acc.airtable_integration with
      | none => rw [h4] at h; cases h
      | some f4 =>
      rw [h4] at h
      simp only [Option.some_bind, Option.pure_def, Option.some.injEq] at h
      subst h
      intro f hf
      simp only [List.mem_cons, List.not_mem_nil, or_false] at hf
      rcases hf with rfl | rfl | rfl | rfl
      · obtain ⟨a, b⟩ := finalizeCat_inv h1 i1
        exact ⟨a, Nat.zero_le _, Nat.zero_le _, Nat.zero_le _, b⟩
      · obtain ⟨a, b⟩ := finalizeCat_inv h2 i2
        exact ⟨a, Nat.zero_le _, Nat.zero_le _, Nat.zero_le _, b⟩
      · obtain ⟨a, b⟩ := finalizeCat_inv h3 i3
        exact ⟨a, Nat.zero_le _, Nat.zero_le _, Nat.zero_le _, b⟩
      · obtain ⟨a, b⟩ := finalizeCat_inv h4 i4
        exact ⟨a, Nat.zero_le _, Nat.zero_le _, Nat.zero_le _, b⟩

/-- C2 witness: the invariant instantiated on the summary of an empty
results mapping, at its `mobile_tests` aggregate. -/
theorem runsummary_category_invariants_witness :
    mZero.mobile_tests.passed + mZero.mobile_tests.failed =
      mZero.mobile_tests.total ∧
    0 ≤ mZero.mobile_tests.passed ∧ 0 ≤ mZero.mobile_tests.failed ∧
    0 ≤ mZero.mobile_tests.total ∧
    (mZero.mobile_tests.total = 0 →
      mZero.mobile_tests.success_rate = 0 ∧
      mZero.mobile_tests.avg_duration = 0) :=
  runsummary_category_invariants [] mZero (by decide)
    mZero.mobile_tests (by simp)

/-- C9: one report of five `core_tests`-classified cases, two passed and
three failed, at durations 100..500 ms, aggregates to
`total=5, passed=2, failed=3, successRatePercent=40, avgDurationMs=300`. -/
theorem end_to_end_core_aggregate :
    (extractMetrics [("core", rep9)]).map (fun m => m.core_tests) =
      some { total := 5, passed := 2, failed := 3, success_rate := 40,
             avg_duration := 300, total_duration := some 1500 } := by
  simp [extractMetrics, aggregate, reportCases, extractTestsFromSuites,
        extractTestsFromSuite, List.foldlM, accUpdate, catUpdate, categorize,
        pyIn, pyLower, containsSub, rep9, mkCase, initMetrics, initFullCat,
        initShortCat, finalizeCat, Option.bind]
  norm_num

/-- C5: the exit contract fails on the code as written.  With one loaded
report whose single case is mobile-titled, `extract_metrics` raises an
uncaught `KeyError`, so the process terminates non-zero even though report
data was loaded and every backend would have accepted its payload.  The
no-data half of the claim does hold: an empty mapping ends in the no-data
state with non-zero exit and no publish attempt. -/
theorem run_crashes_despite_loaded_report :
    run [("core", repMobile)] 0 netAllOk = .crashed ∧
    exitCode (run [("core", repMobile)] 0 netAllOk) = 1 ∧
    0 < ([("core", repMobile)] : List (String × Report)).length ∧
    run [] 0 netAllOk = .noData ∧
    exitCode (run [] 0 netAllOk) = 1 := by
  decide

/-- C6: when the metrics-store delivery fails (transport exception or any
non-200 status), the publisher returns the failure flag and echoes every
rendered metric line to the console, and the orchestrator still attempts
the log-store publisher and then the dashboard publisher and completes the
run: no publisher failure aborts it. -/
theorem prometheus_failure_does_not_abort_run
    (results : List (String × Report)) (m : Metrics) (ts : ℕ) (net : Net)
    (hne : results ≠ []) (hm : extractMetrics results = some m)
    (hfail : net.prom ≠ some 200) :
    (sendToPrometheus m ts net.prom).1 = false ∧
    (∀ l ∈ prometheusLines m ts,
      ("  " ++ l) ∈ (sendToPrometheus m ts net.prom).2) ∧
    run results ts net =
      .completed false (sendToLoki (lokiEntries m results) net.loki).ok
        (createGrafanaAnnotationCall m ts net.graf).1 := by
  have hbeq : (net.prom == some 200) = false := by
    simpa [beq_iff_eq] using hfail
  have hempty : results.isEmpty = false := by
    simpa [List.isEmpty_iff] using hne
  refine ⟨by simp [sendToPrometheus, hbeq], ?_, ?_⟩
  · intro l hl
    simp only [sendToPrometheus, hbeq, if_neg Bool.false_ne_true]
    exact List.mem_cons_of_mem _ (List.mem_map_of_mem _ hl)
  · simp [run, hempty, hm, sendToPrometheus, hbeq]

/-- C6 witness: one loaded (suite-less) report, pushgateway answering 500,
Loki and Grafana healthy. -/
theorem prometheus_failure_does_not_abort_run_witness :
    (sendToPrometheus mZero 3 netPromFail.prom).1 = false ∧
    (∀ l ∈ prometheusLines mZero 3,
      ("  " ++ l) ∈ (sendToPrometheus mZero 3 netPromFail.prom).2) ∧
    run [("core", repNoSuites)] 3 netPromFail =
      .completed false
        (sendToLoki (lokiEntries mZero [("core", repNoSuites)])
          netPromFail.loki).ok
        (createGrafanaAnnotationCall mZero 3 netPromFail.graf).1 :=
  prometheus_failure_does_not_abort_run [("core", repNoSuites)] mZero 3
    netPromFail (by simp) (by decide) (by decide)

set_option maxRecDepth 100000 in
/-- C7: the rendered metric lines are as claimed — five per category over
the four categories with the run-timestamp line last — but the POSTed body
is not newline-joined: the source joins the lines with the string literal
written `"\\n"` in Python, i.e. the two characters backslash and `n`, so
the concrete payload contains no newline character at all (while it does
contain backslashes). -/
theorem prometheus_payload_not_newline_joined :
    prometheusPayload mZero 7 =
      String.intercalate "\\n" (prometheusLines mZero 7) ∧
    (prometheusLines mZero 7).length = 21 ∧
    (prometheusLines mZero 7).getLast? =
      some "playwright_test_execution_timestamp 7" ∧
    (prometheusPayload mZero 7).data.contains '\n' = false ∧
    (prometheusPayload mZero 7).data.contains '\\' = true ∧
    prometheusPayload mZero 7 ≠
      String.intercalate "\n" (prometheusLines mZero 7) := by
  refine ⟨rfl, by decide, by decide, by decide, by decide, by decide⟩

/-- C8 counterexample: on a failed Loki delivery the publisher does not
write all of its entries to standard output.  With the four category
summaries of an empty run it prints exactly three of its four entries;
the `airtable_integration` summary is never written. -/
theorem loki_failure_prints_only_first_three :
    (sendToLoki (lokiEntries mZero []) none).ok = false ∧
    (sendToLoki (lokiEntries mZero []) none).shown.length = 3 ∧
    (lokiEntries mZero []).length = 4 ∧
    summaryLine "airtable_integration" mZero.airtable_integration ∉
      (sendToLoki (lokiEntries mZero []) none).shown := by
  decide

/-- C8 amended: on delivery failure the metrics-store publisher writes
every rendered metric line of its payload to standard output, and the
dashboard publisher writes its fully-rendered annotation payload to
standard output; the log-store publisher, on failure, returns the failure
flag and writes the first three of its log entries plus the count of the
remaining ones to standard output, its batch holding one summary entry
per category plus one failure record per failing test case, each failure
record carrying title, status, duration, and the error message or the
placeholder when absent. -/
theorem loki_failure_prints_first_three_and_count
    (m : Metrics) (results : List (String × Report)) (ts : ℕ)
    (respP respL respG : Option ℕ)
    (hfailP : respP ≠ some 200) (hfailL : respL ≠ some 204)
    (hfailG : respG ≠ some 200 ∧ respG ≠ some 201) :
    ((sendToPrometheus m ts respP).1 = false ∧
      ∀ l ∈ prometheusLines m ts,
        ("  " ++ l) ∈ (sendToPrometheus m ts respP).2) ∧
    createGrafanaAnnotationCall m ts respG =
      (false, some (grafanaAnnotationData m ts)) ∧
    (sendToLoki (lokiEntries m results) respL).ok = false ∧
    (sendToLoki (lokiEntries m results) respL).shown =
      (lokiEntries m results).take 3 ∧
    (sendToLoki (lokiEntries m results) respL).more =
      ((lokiEntries m results).length : ℤ) - 3 ∧
    (lokiEntries m results).length = 4 + (failingCases results).length ∧
    ∀ t ∈ failingCases results,
      LokiLine.failure (t.title.getD "Unknown") (t.status.getD "unknown")
        (t.duration.getD 0) (pyErrorMessage t) ∈ lokiEntries m results := by
  have hbeqP : (respP == some 200) = false := by
    simpa [beq_iff_eq] using hfailP
  have hbeqL : (respL == some 204) = false := by
    simpa [beq_iff_eq] using hfailL
  have hbeqG : (respG == some 200 || respG == some 201) = false := by
    simp only [Bool.or_eq_false_iff, beq_eq_false_iff_ne]
    exact hfailG
  refine ⟨⟨by simp [sendToPrometheus, hbeqP], ?_⟩,
          by simp [createGrafanaAnnotationCall, hbeqG],
          by simp [sendToLoki, hbeqL], by simp [sendToLoki, hbeqL],
          by simp [sendToLoki, hbeqL], by simp [lokiEntries]; omega, ?_⟩
  · intro l hl
    simp only [sendToPrometheus, hbeqP, if_neg Bool.false_ne_true]
    exact List.mem_cons_of_mem _ (List.mem_map_of_mem _ hl)
  · intro t ht
    exact List.mem_append_right _ (List.mem_map_of_mem _ ht)

/-- C8 witness: the amended behaviour at the empty-run summary, with a
pushgateway 500, a Loki transport exception and a Grafana 403. -/
theorem loki_failure_prints_first_three_and_count_witness :
    ((sendToPrometheus mZero 3 (some 500)).1 = false ∧
      ∀ l ∈ prometheusLines mZero 3,
        ("  " ++ l) ∈ (sendToPrometheus mZero 3 (some 500)).2) ∧
    createGrafanaAnnotationCall mZero 3 (some 403) =
      (false, some (grafanaAnnotationData mZero 3)) ∧
    (sendToLoki (lokiEntries mZero []) none).ok = false ∧
    (sendToLoki (lokiEntries mZero []) none).shown =
      (lokiEntries mZero []).take 3 ∧
    (sendToLoki (lokiEntries mZero []) none).more =
      ((lokiEntries mZero []).length : ℤ) - 3 ∧
    (lokiEntries mZero []).length = 4 + (failingCases []).length ∧
    ∀ t ∈ failingCases ([] : List (String × Report)),
      LokiLine.failure (t.title.getD "Unknown") (t.status.getD "unknown")
        (t.duration.getD 0) (pyErrorMessage t) ∈ lokiEntries mZero [] :=
  loki_failure_prints_first_three_and_count mZero [] 3 (some 500) none
    (some 403) (by decide) (by decide) ⟨by decide, by decide⟩

/-- Appending a report without a top-level `suites` key to the input
leaves aggregation unchanged. -/
theorem aggregate_append_nosuites (rs : List (String × Report))
    (tt : String) :
    aggregate (rs ++ [(tt, { suites := none })]) = aggregate rs := by
  unfold aggregate
  rw [List.foldlM_append]
  cases h : rs.foldlM
      (fun a p => (reportCases p.2).foldlM (fun a t => accUpdate a p.1 t) a)
      initMetrics with
  | none => rfl
  | some a =>
      simp [List.foldlM_cons, List.foldlM_nil, reportCases]

/-- C10: missing fields still aggregate, through the documented defaults —
an absent title classifies exactly like the empty title, an absent
duration contributes 0 ms, an absent status (like any status other than
`passed`) counts the case as failed, a report document without a top-level
`suites` field contributes zero cases and is no error, and a case with
every field absent aggregates without error. -/
theorem missing_fields_default_behaviour
    (tt : String) (ti st : Option String) (d : Option ℤ)
    (e : Option ErrorInfo) (c c' : CatAcc) (rs : List (String × Report))
    (hst : st.getD "unknown" ≠ "passed")
    (hupd : catUpdate c { title := ti, status := st, duration := d,
                          error := e } = some c') :
    categorize tt { title := none, status := st, duration := d,
                    error := e } =
      categorize tt { title := some "", status := st, duration := d,
                      error := e } ∧
    catUpdate c { title := ti, status := st, duration := none,
                  error := e } =
      catUpdate c { title := ti, status := st, duration := some 0,
                    error := e } ∧
    (c'.failed = c.failed + 1 ∧ c'.passed = c.passed) ∧
    aggregate (rs ++ [(tt, { suites := none })]) = aggregate rs ∧
    (extractMetrics [("core",
        { suites := some [Suite.mk
            [{ title := none, status := none, duration := none,
               error := none }] []] })]).isSome = true := by
  refine ⟨rfl, rfl, ?_, aggregate_append_nosuites rs tt, by decide⟩
  have hbeq : (st.getD "unknown" == "passed") = false := by
    simpa [beq_iff_eq] using hst
  cases htd : c.total_duration with
  | none => simp [catUpdate, htd] at hupd
  | some td =>
      simp only [catUpdate, htd, hbeq] at hupd
      simp only [Bool.false_eq_true, if_false, Option.some.injEq] at hupd
      subst hupd
      exact ⟨rfl, rfl⟩

/-- C10 witness: a case with every field absent, processed into the
initial `core_tests` dict. -/
theorem missing_fields_default_behaviour_witness :
    categorize "core" { title := none, status := none, duration := none,
                        error := none } =
      categorize "core" { title := some "", status := none,
                          duration := none, error := none } ∧
    catUpdate initFullCat { title := none, status := none, duration := none,
                            error := none } =
      catUpdate initFullCat { title := none, status := none,
                              duration := some 0, error := none } ∧
    (({ total := 1, passed := 0, failed := 1, success_rate := 0,
        avg_duration := some 0, total_duration := some 0 } : CatAcc).failed =
        initFullCat.failed + 1 ∧
      ({ total := 1, passed := 0, failed := 1, success_rate := 0,
         avg_duration := some 0, total_duration := some 0 } : CatAcc).passed =
        initFullCat.passed) ∧
    aggregate ([] ++ [("core", { suites := none })]) = aggregate [] ∧
    (extractMetrics [("core",
        { suites := some [Suite.mk
            [{ title := none, status := none, duration := none,
               error := none }] []] })]).isSome = true :=
  missing_fields_default_behaviour "core" none none none none initFullCat
    { total := 1, passed := 0, failed := 1, success_rate := 0,
      avg_duration := some 0, total_duration := some 0 } []
    (by decide) (by decide)

end LGTM
